import Mathlib

/-
Verification of the AI-Calendar command-line calendar (src/Ai.py/main.py)
against its specification.

Modelling conventions (shallow embedding of the Python source):
* Timestamps are absolute minute counts (Nat).  The source stores ISO-8601
  strings and converts with `datetime.fromisoformat` / `.isoformat()`, which
  round-trip exactly; the spec likewise compares timestamps "after
  normalization", so an event's `start`/`end` fields carry the normalized
  timestamp directly.  `datetime.date()` becomes division by 1440 (minutes
  per day), `timedelta(minutes=d)` becomes `+ d`, and `strftime` is
  implemented below over the same minute counts (civil-date algorithm).
* `dateparser.parse` (external library) is an oracle parameter
  `dparse : String → Option Nat`; `None` models its parse failure.
* `str(uuid.uuid4())` is an oracle parameter `event_id : String`; v4 UUID
  uniqueness becomes a freshness hypothesis where a claim needs it.
* The global `events_store` and the JSON file become an explicit state
  `CalState` threaded through the operations; `save_events` records the
  serialized collection in the state's `file` component.
* Python exceptions that escape a function are modelled with `Except`:
  `.error msg` is a raised exception carrying `str(e)`, `.ok` a normal
  return.  The `⚠`/`ℹ`/`❌` strings returned by the source are the
  user-facing forms of the spec's ConflictError / NotFoundError /
  empty-signal / DateParseError (spec section 7 maps each error kind to such
  a message).
* `json.load`-able file contents are a `Json` value; contents that raise
  `json.JSONDecodeError` are `FileContent.notJson`; a missing file is `none`.
* `animated_print` / `spinner` are cosmetic terminal output with no effect
  on the store and are not modelled.
-/

set_option autoImplicit false

namespace AICal

/-! ## String helpers mirroring the Python string methods used -/

/-- Python `str.strip()`: drop leading and trailing whitespace. -/
def pyStrip (s : String) : String :=
  String.mk (((s.data.dropWhile Char.isWhitespace).reverse.dropWhile Char.isWhitespace).reverse)

/-- Python `str.lower()` (ASCII case folding suffices for the keywords used). -/
def pyLower (s : String) : String :=
  String.mk (s.data.map Char.toLower)

/-- Python `str.split(sep)` for a one-character separator: splits at every
occurrence, keeping empty pieces (`"a,,b" → ["a","","b"]`, `"" → [""]`). -/
def splitOnChar (sep : Char) : List Char → List (List Char)
  | [] => [[]]
  | c :: rest =>
    match splitOnChar sep rest with
    | [] => [[]]
    | g :: gs => if c = sep then [] :: g :: gs else (c :: g) :: gs

/-- `[p.strip() for p in s.split(",")]` from the add-command handler. -/
def splitCommaStrip (l : List Char) : List String :=
  (splitOnChar (Char.ofNat 44) l).map (fun g => pyStrip (String.mk g))

/-- Python `int()` on a nonempty ASCII digit string. -/
def digitsToNat (l : List Char) : Nat :=
  l.foldl (fun n c => n * 10 + (c.toNat - 48)) 0

/-- An apostrophe, kept out of string literals. -/
def apos : String := (Char.ofNat 39).toString

/-! ## strftime over minute timestamps -/

/-- Days-since-1970-01-01 to (year, month, day), proleptic Gregorian
(Howard Hinnant's civil-from-days algorithm, restricted to `Nat` inputs). -/
def civilFromDays (z0 : Nat) : Nat × Nat × Nat :=
  let z := z0 + 719468
  let era := z / 146097
  let doe := z % 146097
  let yoe := (doe - doe / 1460 + doe / 36524 - doe / 146096) / 365
  let y0 := yoe + era * 400
  let doy := doe - (365 * yoe + yoe / 4 - yoe / 100)
  let mp := (5 * doy + 2) / 153
  let d := doy - (153 * mp + 2) / 5 + 1
  let m := if mp < 10 then mp + 3 else mp - 9
  (if m ≤ 2 then y0 + 1 else y0, m, d)

def pad2 (n : Nat) : String := if n < 10 then "0" ++ toString n else toString n

def pad4 (n : Nat) : String :=
  if n < 10 then "000" ++ toString n
  else if n < 100 then "00" ++ toString n
  else if n < 1000 then "0" ++ toString n
  else toString n

/-- `date.__str__` / `strftime("%Y-%m-%d")` of a day count. -/
def fmtDate (days : Nat) : String :=
  let c := civilFromDays days
  pad4 c.1 ++ "-" ++ pad2 c.2.1 ++ "-" ++ pad2 c.2.2

/-- `strftime("%H:%M")` of a minute timestamp. -/
def fmtHM (t : Nat) : String :=
  pad2 (t % 1440 / 60) ++ ":" ++ pad2 (t % 60)

/-- `strftime("%Y-%m-%d %H:%M")` of a minute timestamp. -/
def fmtYMDHM (t : Nat) : String :=
  fmtDate (t / 1440) ++ " " ++ fmtHM t

/-! ## Constants (main.py lines 14-16) -/

def DEFAULT_PARTICIPANTS : List String := ["Parth", "Nitish", "Atul"]

def DEFAULT_DURATION : Nat := 30

/-! ## Data model (the `Event` dataclass, main.py lines 24-30) -/

structure Event where
  id : String
  title : String
  start : Nat
  «end» : Nat
  participants : List String
deriving DecidableEq

/-! ## Persistence (main.py lines 33-45)

The persisted file is a JSON document.  `Json` models the values
`json.load` can produce (numbers restricted to the Nat timestamps this
program writes). -/

inductive Json where
  | null
  | bool (b : Bool)
  | num (n : Nat)
  | str (s : String)
  | arr (items : List Json)
  | obj (fields : List (String × Json))

/-- Contents of the calendar file: either text that `json.load` rejects with
`json.JSONDecodeError`, or a decoded JSON value. -/
inductive FileContent where
  | notJson
  | json (j : Json)

/-- The dataclass field names, in declaration order. -/
def eventFields : List String := ["id", "title", "start", "end", "participants"]

def encodeEvent (e : Event) : Json :=
  .obj [("id", .str e.id), ("title", .str e.title), ("start", .num e.start),
        ("end", .num e.«end»), ("participants", .arr (e.participants.map .str))]

/-- `json.dump([asdict(e) for e in events])`: the serialized collection. -/
def save_events (events : List Event) : FileContent :=
  .json (.arr (events.map encodeEvent))

def decodeStr : Json → Option String
  | .str s => some s
  | _ => none

def decodeNum : Json → Option Nat
  | .num n => some n
  | _ => none

def decodeStrs : List Json → Option (List String)
  | [] => some []
  | j :: js =>
    match decodeStr j, decodeStrs js with
    | some s, some ss => some (s :: ss)
    | _, _ => none

/-- `Event(**e)`: `e` must be a mapping whose key set is exactly the
dataclass's field names (a missing or unexpected keyword raises `TypeError`).
Field values are read here at the dataclass's annotated types — the shape
`save_events` writes and the only shape the theorems below exercise.
Caveat: Python dataclasses never enforce the annotations at runtime, so on
an exactly-keyed mapping with differently-typed values the source would
construct a (malformed) `Event` where this decoder returns `none`; no
theorem in this file rests on that corner. -/
def decodeEvent : Json → Option Event
  | .obj kvs =>
    let ks := kvs.map Prod.fst
    if ks.all (fun k => eventFields.contains k) && eventFields.all (fun k => ks.contains k) then
      match kvs.lookup "id", kvs.lookup "title", kvs.lookup "start",
            kvs.lookup "end", kvs.lookup "participants" with
      | some ji, some jt, some js, some je, some jp =>
        match decodeStr ji, decodeStr jt, decodeNum js, decodeNum je,
              (match jp with | .arr l => decodeStrs l | _ => none) with
        | some i, some t, some s, some en, some ps => some ⟨i, t, s, en, ps⟩
        | _, _, _, _, _ => none
      | _, _, _, _, _ => none
    else none
  | _ => none

def decodeEventList : List Json → Option (List Event)
  | [] => some []
  | j :: js =>
    match decodeEvent j, decodeEventList js with
    | some e, some es => some (e :: es)
    | _, _ => none

/-- `load_events()` (main.py lines 33-41).  `none` = file absent
(`os.path.exists` false); `.notJson` = `json.JSONDecodeError`, caught,
returning `[]`; a decoded JSON value is iterated with
`[Event(**e) for e in data]`, whose `TypeError` is NOT caught and escapes
(`.error`).  Iterating an empty string or empty object yields no elements,
so those degenerate top-level values return `[]` without error; a number,
boolean or null is not iterable, and a nonempty string or object yields
elements that are not mappings — all `TypeError`. -/
def load_events (file : Option FileContent) : Except String (List Event) :=
  match file with
  | none => .ok []
  | some .notJson => .ok []
  | some (.json j) =>
    match j with
    | .arr l =>
      match decodeEventList l with
      | some es => .ok es
      | none => .error "TypeError"
    | .str s => if s.data.isEmpty then .ok [] else .error "TypeError"
    | .obj kvs => if kvs.isEmpty then .ok [] else .error "TypeError"
    | _ => .error "TypeError"

/-! ## Program state: the global `events_store` plus the persisted file -/

structure CalState where
  events_store : List Event
  file : Option FileContent

/-! ## Core functions (main.py lines 50-54 and 75-130) -/

/-- `parse_to_datetime` (lines 50-54): `dateparser.parse` is the oracle
`dparse`; a `None` result raises `ValueError` with the ❌ message. -/
def parse_to_datetime (dparse : String → Option Nat) (date_text : String) :
    Except String Nat :=
  match dparse date_text with
  | some dt => .ok dt
  | none => .error ("❌ Could not parse date/time from " ++ apos ++ date_text ++ apos)

/-- The conflict-scan predicate of line 92:
`datetime.fromisoformat(e.start) < end_dt and datetime.fromisoformat(e.end) > start_dt`. -/
def overlapsB (start_dt end_dt : Nat) (e : Event) : Bool :=
  decide (e.start < end_dt) && decide (start_dt < e.«end»)

/-- `participants = participants or DEFAULT_PARTICIPANTS` (line 78): Python's
`or` replaces both `None` and the falsy empty list with the default. -/
def mkParts (participants : Option (List String)) : List String :=
  match participants with
  | none => DEFAULT_PARTICIPANTS
  | some l => if l.isEmpty then DEFAULT_PARTICIPANTS else l

/-- The `Event` constructed at lines 81-87. -/
def mkEvent (event_id title : String) (start_dt duration_minutes : Nat)
    (participants : Option (List String)) : Event :=
  ⟨event_id, title, start_dt, start_dt + duration_minutes, mkParts participants⟩

/-- The ✅ success message of line 101. -/
def scheduledMsg (title : String) (start_dt duration_minutes : Nat)
    (parts : List String) : String :=
  "✅ Event " ++ apos ++ title ++ apos ++ " scheduled on " ++ fmtYMDHM start_dt
    ++ " for " ++ toString duration_minutes ++ " minutes with "
    ++ String.intercalate ", " parts

/-- The ⚠ conflict message of lines 95-96. -/
def conflictMsg (conflict_titles : List String) : String :=
  "⚠ Conflict detected with event(s): " ++ String.intercalate ", " conflict_titles

/-- `schedule_event` (lines 75-101).  Returns the outgoing message and the
updated state; a `ValueError` escaping from `parse_to_datetime` is `.error`.
On conflict the message is returned before anything is appended or saved;
on success the event is appended and the whole collection saved before
returning. -/
def schedule_event (dparse : String → Option Nat) (title datetime_text : String)
    (duration_minutes : Nat) (participants : Option (List String))
    (event_id : String) (st : CalState) : Except String (String × CalState) :=
  match parse_to_datetime dparse datetime_text with
  | .error e => .error e
  | .ok start_dt =>
    let end_dt := start_dt + duration_minutes
    let event : Event := mkEvent event_id title start_dt duration_minutes participants
    let conflicts := st.events_store.filter (overlapsB start_dt end_dt)
    if conflicts.isEmpty then
      let store := st.events_store ++ [event]
      .ok (scheduledMsg title start_dt duration_minutes event.participants,
           ⟨store, some (save_events store)⟩)
    else
      .ok (conflictMsg (conflicts.map Event.title), st)

/-- Sort key order of line 114: ascending by parsed start timestamp. -/
def startLE (a b : Event) : Prop := a.start ≤ b.start

instance : DecidableRel startLE := fun a b => Nat.decLe a.start b.start

instance : IsTotal Event startLE := ⟨fun a b => Nat.le_total a.start b.start⟩

instance : IsTrans Event startLE := ⟨fun _ _ _ => Nat.le_trans⟩

/-- `sorted(events, key=lambda e: datetime.fromisoformat(e.start))`:
Python's stable ascending sort, modelled by the (equally stable)
insertion sort. -/
def sortByStart (events : List Event) : List Event :=
  List.insertionSort startLE events

/-- One 🗓 line of `list_events` (lines 117-120). -/
def renderEventLine (e : Event) : String :=
  "🗓 " ++ e.id ++ ": " ++ e.title ++ " on " ++ fmtYMDHM e.start
    ++ " to " ++ fmtHM e.«end» ++ " with " ++ String.intercalate ", " e.participants

/-- `list_events` (lines 103-121).  With a date text, filters to events whose
start date equals the resolved target date (`ValueError` from the parse
escapes uncaught); without one, takes the whole store.  An empty selection
returns the ℹ message; otherwise the selection is sorted and rendered. -/
def list_events (dparse : String → Option Nat) (date_text : Option String)
    (st : CalState) : Except String String :=
  match date_text with
  | some txt =>
    match parse_to_datetime dparse txt with
    | .error e => .error e
    | .ok t =>
      let target_date := t / 1440
      let events := st.events_store.filter (fun e => decide (e.start / 1440 = target_date))
      if events.isEmpty then
        .ok ("ℹ No events scheduled for " ++ fmtDate target_date)
      else
        .ok (String.intercalate "\n" ((sortByStart events).map renderEventLine))
  | none =>
    if st.events_store.isEmpty then
      .ok "ℹ No events scheduled."
    else
      .ok (String.intercalate "\n" ((sortByStart st.events_store).map renderEventLine))

/-- The loop of `remove_event` (lines 124-130): find the first event with the
given id and drop it, returning it alongside the remaining list.
(`events_store.remove(e)` drops the first element equal to `e`; `e` is the
first element whose id matches, and any earlier equal element would also
match the id, so this is exactly "drop the first id match".) -/
def removeFirstById (event_id : String) : List Event → Option (Event × List Event)
  | [] => none
  | e :: rest =>
    if e.id = event_id then some (e, rest)
    else
      match removeFirstById event_id rest with
      | some (f, l) => some (f, e :: l)
      | none => none

/-- `remove_event` (lines 123-130): on a match, delete it and save; on no
match, return the ℹ message with the state untouched (no save). -/
def remove_event (event_id : String) (st : CalState) : String × CalState :=
  match removeFirstById event_id st.events_store with
  | some (e, rest) =>
    ("🗑 Deleted event " ++ event_id ++ ": " ++ e.title,
     ⟨rest, some (save_events rest)⟩)
  | none =>
    ("ℹ No event found with id " ++ event_id, st)

/-! ## Command patterns (main.py lines 19-21)

The three `re.IGNORECASE` patterns, used with `re.match` (anchored at the
start of the input, not at its end unless the pattern says `$`), are
implemented directly with Python's backtracking order: a lazy `.+?` grows
one character at a time, a greedy optional group is tried present before
absent, and `.` never matches a newline.  `handle_command` strips its input
first, so no input here carries a trailing newline and `$` is simply
end-of-input. -/

/-- Case-insensitive literal prefix match; returns the rest of the input. -/
def dropLitCI : List Char → List Char → Option (List Char)
  | [], s => some s
  | _ :: _, [] => none
  | p :: ps, c :: cs => if p.toLower = c.toLower then dropLitCI ps cs else none

/-- Ways of matching the greedy optional `(?: for (\d+)\s*minutes?)?` at the
front of `u`, in regex preference order (clause present — with the trailing
`s` before without it — before clause absent), paired with the input left
for the rest of the pattern.  `\d+` and `\s*` are effectively possessive
here: giving back characters only re-exposes a digit or a space where the
literal `minute` is required next. -/
def forCandidates (u : List Char) : List (Option Nat × List Char) :=
  (match dropLitCI " for ".data u with
   | some r1 =>
     let digits := r1.takeWhile Char.isDigit
     if digits.isEmpty then []
     else
       let r3 := (r1.dropWhile Char.isDigit).dropWhile Char.isWhitespace
       match dropLitCI "minute".data r3 with
       | some r4 =>
         match r4 with
         | c :: r5 =>
           if c.toLower = Char.ofNat 115 then
             [(some (digitsToNat digits), r5), (some (digitsToNat digits), r4)]
           else [(some (digitsToNat digits), r4)]
         | [] => [(some (digitsToNat digits), [])]
       | none => []
   | none => []) ++ [(none, u)]

/-- Matches `(?: with (.+))?$` against all of `u`: either the ` with `
clause takes the (nonempty, newline-free) remainder, or `u` is empty. -/
def withEndMatch (u : List Char) : Option (Option (List Char)) :=
  match dropLitCI " with ".data u with
  | some r =>
    if !r.isEmpty && !r.contains (Char.ofNat 10) then some (some r)
    else if u.isEmpty then some none else none
  | none => if u.isEmpty then some none else none

/-- Matches `(?: for (\d+)\s*minutes?)?(?: with (.+))?$` against all of `u`,
taking the first alternative (regex preference order) that lets the rest
succeed. -/
def tailMatch (u : List Char) : Option (Option Nat × Option (List Char)) :=
  (forCandidates u).findSome? fun fc =>
    (withEndMatch fc.2).map fun g4 => (fc.1, g4)

/-- The lazy `(.+?)` of group 2 followed by the tail pattern: grow the
capture one (non-newline) character at a time, succeeding at the first
length whose remainder matches the tail. -/
def scanGroup2 (acc : List Char) : List Char → Option (List Char × Option Nat × Option (List Char))
  | [] => none
  | c :: rest =>
    if c = Char.ofNat 10 then none
    else
      match tailMatch rest with
      | some (g3, g4) => some (acc ++ [c], g3, g4)
      | none => scanGroup2 (acc ++ [c]) rest

/-- The lazy `(.+?)` of group 1: after each added character, try the
literal ` on ` and the rest of the pattern; extend on failure. -/
def scanGroup1 (acc : List Char) : List Char → Option (List Char × List Char × Option Nat × Option (List Char))
  | [] => none
  | c :: rest =>
    if c = Char.ofNat 10 then none
    else
      let acc1 := acc ++ [c]
      match dropLitCI " on ".data rest with
      | some r2 =>
        match scanGroup2 [] r2 with
        | some (g2, g3, g4) => some (acc1, g2, g3, g4)
        | none => scanGroup1 acc1 rest
      | none => scanGroup1 acc1 rest

/-- `ADD_PATTERN.match(command)`:
`add (.+?) on (.+?)(?: for (\d+)\s*minutes?)?(?: with (.+))?$`, returning
the four capture groups. -/
def addMatch (s : List Char) : Option (List Char × List Char × Option Nat × Option (List Char)) :=
  match dropLitCI "add ".data s with
  | some rest => scanGroup1 [] rest
  | none => none

/-- `VIEW_PATTERN.match(command)`: `what(?:'s| is) happening on (.+)` —
a prefix match (no `$`), whose greedy `.+` captures up to the end of the
line. -/
def viewMatch (s : List Char) : Option (List Char) :=
  match
    (match dropLitCI ("what" ++ apos ++ "s happening on ").data s with
     | some r => some r
     | none => dropLitCI "what is happening on ".data s) with
  | some r =>
    let g := r.takeWhile (fun c => c ≠ Char.ofNat 10)
    if g.isEmpty then none else some g
  | none => none

/-- `DELETE_PATTERN.match(command)`: `delete event (.+)` — a prefix match
whose greedy `.+` captures up to the end of the line. -/
def deleteMatch (s : List Char) : Option (List Char) :=
  match dropLitCI "delete event ".data s with
  | some r =>
    let g := r.takeWhile (fun c => c ≠ Char.ofNat 10)
    if g.isEmpty then none else some g
  | none => none

/-! ## Command processing (main.py lines 133-168) -/

/-- The group extraction of the add branch (lines 139-142): stripped title
and date text, `int(group 3)` or the default duration, and the
comma-split, stripped participant list when group 4 is present. -/
def parseAdd (command : String) : Option (String × String × Nat × Option (List String)) :=
  match addMatch command.data with
  | some (g1, g2, g3, g4) =>
    some (pyStrip (String.mk g1), pyStrip (String.mk g2),
          (match g3 with | some n => n | none => DEFAULT_DURATION),
          g4.map splitCommaStrip)
  | none => none

/-- The fixed help text of lines 162-168. -/
def NOT_RECOGNIZED : String :=
  "❌ Command not recognized. Examples:\n"
    ++ "- add meeting on tomorrow at 10am for 60 minutes with Parth, Nitish, Atul\n"
    ++ "- what" ++ apos ++ "s happening on 2025-10-16\n"
    ++ "- view all events\n"
    ++ "- delete event <uuid>"

/-- `handle_command` (lines 133-168).  The add branch catches every
exception from `schedule_event` and returns `str(e)`; the view branches do
NOT catch the `ValueError` a date-parse failure raises, so it escapes as
`.error`.  Branch order is the source's: add, view-by-date, the exact
(lower-cased) literal `view all events`, delete, then the help text. -/
def handle_command (dparse : String → Option Nat) (newId : String)
    (cmd : String) (st : CalState) : Except String (String × CalState) :=
  let command := pyStrip cmd
  match parseAdd command with
  | some (title, dt_text, duration, participants) =>
    match schedule_event dparse title dt_text duration participants newId st with
    | .ok r => .ok r
    | .error e => .ok (e, st)
  | none =>
    match viewMatch command.data with
    | some g1 =>
      match list_events dparse (some (pyStrip (String.mk g1))) st with
      | .ok out => .ok (out, st)
      | .error e => .error e
    | none =>
      if pyLower command = "view all events" then
        match list_events dparse none st with
        | .ok out => .ok (out, st)
        | .error e => .error e
      else
        match deleteMatch command.data with
        | some g1 => .ok (remove_event (pyStrip (String.mk g1)) st)
        | none => .ok (NOT_RECOGNIZED, st)

/-! ## Concrete fixtures used by the witness theorems

Minute timestamps: day 20241 since the epoch is 2025-06-02, so
2025-06-02 09:00 is `20241 * 1440 + 540 = 29147580`. -/

/-- A date-interpreter oracle fixing a few concrete phrases. -/
def dpFix : String → Option Nat := fun s =>
  if s = "2025-06-02 09:00" then some 29147580
  else if s = "2025-06-02 09:15" then some 29147595
  else if s = "2025-06-02 09:30" then some 29147610
  else if s = "2025-06-02" then some 29147040
  else if s = "jan" then some 600
  else none

def evStandup : Event := ⟨"id-1", "Standup", 29147580, 29147610, ["Parth"]⟩

/-- Empty store with no calendar file. -/
def st0 : CalState := ⟨[], none⟩

/-- Store holding only the 09:00-09:30 standup. -/
def st1 : CalState := ⟨[evStandup], some (save_events [evStandup])⟩

def evA : Event := ⟨"a1", "A", 29147700, 29147730, ["P"]⟩

def evB : Event := ⟨"b1", "B", 29147580, 29147610, ["Q"]⟩

def evC : Event := ⟨"c1", "C", 29149020, 29149050, ["R"]⟩

/-- Three events, two on 2025-06-02 (out of start order) and one on
2025-06-03. -/
def st2 : CalState := ⟨[evA, evB, evC], some (save_events [evA, evB, evC])⟩

/-- The zero-duration event that `add x on jan for 0 minutes` creates. -/
def evZero : Event := ⟨"id-0", "x", 600, 600, DEFAULT_PARTICIPANTS⟩

/-- The 30-minute event scheduled by the C7 witness. -/
def ev30 : Event := ⟨"id-2", "y", 600, 630, DEFAULT_PARTICIPANTS⟩

/-! ## Helper lemmas -/

theorem decodeStrs_map_str (ps : List String) :
    decodeStrs (ps.map Json.str) = some ps := by
  induction ps with
  | nil => rfl
  | cons s ss ih => simp [decodeStrs, decodeStr, ih]

theorem decodeEvent_encodeEvent (e : Event) :
    decodeEvent (encodeEvent e) = some e := by
  obtain ⟨i, t, s, en, ps⟩ := e
  simp [decodeEvent, encodeEvent, decodeStrs_map_str, decodeStr, decodeNum,
    eventFields, List.lookup]

theorem decodeEventList_map_encode (es : List Event) :
    decodeEventList (es.map encodeEvent) = some es := by
  induction es with
  | nil => rfl
  | cons e l ih => simp [decodeEventList, decodeEvent_encodeEvent, ih]

/-- C5: For every sequence of events, saving it with `save_events` and then
loading with `load_events` yields an identical sequence of events (with
timestamps in normalized form): the persist/reload round-trip is the
identity on the stored collection. -/
theorem save_load_roundtrip (es : List Event) :
    load_events (some (save_events es)) = .ok es := by
  simp [load_events, save_events, decodeEventList_map_encode]

/-- C6 (amended): `load_events` returns the empty sequence when the file is
missing or when its contents fail JSON decoding (`json.JSONDecodeError` is
the only exception caught) — and also for JSON-decodable contents whose
iteration yields no elements, such as the degenerate documents `""` and
`{}`; but not for every malformed JSON-decodable content: a decoded list
holding a non-mapping element raises an uncaught `TypeError` (see the
counterexample), a fatal error rather than "no data". -/
theorem load_missing_or_undecodable_empty :
    load_events none = .ok []
    ∧ load_events (some .notJson) = .ok []
    ∧ load_events (some (.json (.str ""))) = .ok []
    ∧ load_events (some (.json (.obj []))) = .ok [] :=
  ⟨rfl, rfl, rfl, rfl⟩

/-- C6 (counterexample): the file content `[1]` is valid JSON, hence is
"malformed persisted state" that `json.load` accepts, yet `Event(**1)`
raises `TypeError` (an integer is not a mapping — a key-structure failure on
which the decoder agrees with Python, independent of the annotated-type
caveat), and `load_events` does not catch it — this load is a fatal error,
not an empty sequence. -/
theorem load_malformed_json_raises :
    load_events (some (.json (.arr [.num 1]))) = .error "TypeError" := rfl

/-- C1: For every pair of events whose `[start, end)` intervals overlap under
the half-open comparison (`e.start < new_end` and `new_start < e.end`),
scheduling the second one fails with the conflict message naming every
conflicting event's title (the message joins exactly the titles of all
overlapping stored events), and the returned state — in-memory collection
and persisted file alike — is the unchanged `st`: the new event is not
stored. -/
theorem schedule_conflict_rejected
    (dparse : String → Option Nat) (st : CalState) (e : Event)
    (title dtext eid : String) (dur start_dt : Nat) (parts : Option (List String))
    (hp : dparse dtext = some start_dt)
    (he : e ∈ st.events_store)
    (h1 : e.start < start_dt + dur) (h2 : start_dt < e.«end») :
    (schedule_event dparse title dtext dur parts eid st =
      .ok (conflictMsg ((st.events_store.filter (overlapsB start_dt (start_dt + dur))).map Event.title), st))
    ∧ ∀ x ∈ st.events_store, x.start < start_dt + dur → start_dt < x.«end» →
        x.title ∈ (st.events_store.filter (overlapsB start_dt (start_dt + dur))).map Event.title := by
  have hov : overlapsB start_dt (start_dt + dur) e = true := by
    simp only [overlapsB, Bool.and_eq_true, decide_eq_true_eq]
    exact ⟨h1, h2⟩
  have hne : (st.events_store.filter (overlapsB start_dt (start_dt + dur))).isEmpty = false :=
    List.isEmpty_eq_false.2 (List.ne_nil_of_mem (List.mem_filter.2 ⟨he, hov⟩))
  refine ⟨?_, ?_⟩
  · simp [schedule_event, parse_to_datetime, hp, hne]
  · intro x hx hx1 hx2
    exact List.mem_map_of_mem Event.title
      (List.mem_filter.2 ⟨hx, by
        simp only [overlapsB, Bool.and_eq_true, decide_eq_true_eq]
        exact ⟨hx1, hx2⟩⟩)

theorem schedule_conflict_rejected_witness :
    dpFix "2025-06-02 09:15" = some 29147595
    ∧ evStandup ∈ st1.events_store
    ∧ evStandup.start < 29147595 + 30
    ∧ 29147595 < evStandup.«end»
    ∧ schedule_event dpFix "Planning" "2025-06-02 09:15" 30 none "id-9" st1 =
        .ok (conflictMsg ((st1.events_store.filter (overlapsB 29147595 (29147595 + 30))).map Event.title), st1) :=
  ⟨rfl, by decide, by decide, by decide,
   (schedule_conflict_rejected dpFix st1 evStandup "Planning" "2025-06-02 09:15"
     "id-9" 30 29147595 none rfl (by decide) (by decide) (by decide)).1⟩

/-- C2: For every schedule request whose resolved interval overlaps no stored
event — the non-overlap hypothesis also covers a request starting exactly at
an existing event's end, since the comparison is half-open — and whose
generated identifier is fresh (modelling v4 UUID uniqueness), `schedule_event`
succeeds: the created event carries the fresh id (not equal to any stored
event's id), participants default to the configured list when omitted,
`end = start + duration_minutes`, the event is appended, the collection is
persisted before returning, the ✅ message reports the created event, and the
store size increases by exactly one. -/
theorem schedule_success
    (dparse : String → Option Nat) (st : CalState)
    (title dtext eid : String) (dur start_dt : Nat) (parts : Option (List String))
    (hp : dparse dtext = some start_dt)
    (hfresh : eid ∉ st.events_store.map Event.id)
    (hnc : ∀ e ∈ st.events_store, ¬(e.start < start_dt + dur ∧ start_dt < e.«end»)) :
    (schedule_event dparse title dtext dur parts eid st =
      .ok (scheduledMsg title start_dt dur (mkEvent eid title start_dt dur parts).participants,
           ⟨st.events_store ++ [mkEvent eid title start_dt dur parts],
            some (save_events (st.events_store ++ [mkEvent eid title start_dt dur parts]))⟩))
    ∧ (mkEvent eid title start_dt dur parts).id = eid
    ∧ eid ∉ st.events_store.map Event.id
    ∧ (mkEvent eid title start_dt dur parts).title = title
    ∧ (mkEvent eid title start_dt dur parts).start = start_dt
    ∧ (mkEvent eid title start_dt dur parts).«end» = start_dt + dur
    ∧ (parts = none → (mkEvent eid title start_dt dur parts).participants = DEFAULT_PARTICIPANTS)
    ∧ (st.events_store ++ [mkEvent eid title start_dt dur parts]).length
        = st.events_store.length + 1 := by
  have hfil : st.events_store.filter (overlapsB start_dt (start_dt + dur)) = [] := by
    rw [List.filter_eq_nil_iff]
    intro x hx
    simpa only [overlapsB, Bool.and_eq_true, decide_eq_true_eq] using hnc x hx
  refine ⟨?_, rfl, hfresh, rfl, rfl, rfl, ?_, by simp⟩
  · simp [schedule_event, parse_to_datetime, hp, hfil]
  · intro h
    subst h
    rfl

theorem schedule_success_witness :
    schedule_event dpFix "Review" "2025-06-02 09:30" 30 none "id-7" st1 =
      .ok (scheduledMsg "Review" 29147610 30 (mkEvent "id-7" "Review" 29147610 30 none).participants,
           ⟨st1.events_store ++ [mkEvent "id-7" "Review" 29147610 30 none],
            some (save_events (st1.events_store ++ [mkEvent "id-7" "Review" 29147610 30 none]))⟩) :=
  (schedule_success dpFix st1 "Review" "2025-06-02 09:30" "id-7" 30 29147610 none
    rfl (by decide) (by decide)).1

/-- C10: an explicitly supplied empty participant list is treated the same
as an omitted one — `schedule_event` with `some []` equals `schedule_event`
with `none` — and on the no-conflict path the created event's participants
are exactly `DEFAULT_PARTICIPANTS`, which is nonempty, so no event created
by `schedule_event` has an empty participants list. -/
theorem empty_participants_default
    (dparse : String → Option Nat) (st : CalState)
    (title dtext eid : String) (dur start_dt : Nat)
    (hp : dparse dtext = some start_dt)
    (hnc : ∀ e ∈ st.events_store, ¬(e.start < start_dt + dur ∧ start_dt < e.«end»)) :
    (schedule_event dparse title dtext dur (some []) eid st =
      schedule_event dparse title dtext dur none eid st)
    ∧ (mkEvent eid title start_dt dur (some [])).participants = DEFAULT_PARTICIPANTS
    ∧ (schedule_event dparse title dtext dur (some []) eid st =
        .ok (scheduledMsg title start_dt dur DEFAULT_PARTICIPANTS,
             ⟨st.events_store ++ [⟨eid, title, start_dt, start_dt + dur, DEFAULT_PARTICIPANTS⟩],
              some (save_events (st.events_store ++ [⟨eid, title, start_dt, start_dt + dur, DEFAULT_PARTICIPANTS⟩]))⟩))
    ∧ DEFAULT_PARTICIPANTS ≠ [] := by
  have hfil : st.events_store.filter (overlapsB start_dt (start_dt + dur)) = [] := by
    rw [List.filter_eq_nil_iff]
    intro x hx
    simpa only [overlapsB, Bool.and_eq_true, decide_eq_true_eq] using hnc x hx
  refine ⟨rfl, rfl, ?_, by decide⟩
  simp [schedule_event, parse_to_datetime, hp, hfil, mkEvent, mkParts]

theorem empty_participants_default_witness :
    schedule_event dpFix "Sync" "jan" 30 (some []) "id-3" st0 =
      .ok (scheduledMsg "Sync" 600 30 DEFAULT_PARTICIPANTS,
           ⟨st0.events_store ++ [⟨"id-3", "Sync", 600, 600 + 30, DEFAULT_PARTICIPANTS⟩],
            some (save_events (st0.events_store ++ [⟨"id-3", "Sync", 600, 600 + 30, DEFAULT_PARTICIPANTS⟩]))⟩) :=
  (empty_participants_default dpFix st0 "Sync" "jan" "id-3" 30 600 rfl (by decide)).2.2.1

/-- C7 (amended): every event a `schedule_event` call adds to the store
satisfies `end = start + duration_minutes`, so its end is strictly after its
start whenever the duration is positive; but the public interface accepts
`for 0 minutes` (the `\d+` capture), and a zero duration creates an event
with `end = start` (see the counterexample), so "end strictly after start"
does NOT hold for every duration the interface accepts. -/
theorem schedule_end_eq_start_add_duration
    (dparse : String → Option Nat) (st : CalState)
    (title dtext eid : String) (dur start_dt : Nat) (parts : Option (List String))
    (msg : String) (st' : CalState)
    (hp : dparse dtext = some start_dt)
    (hok : schedule_event dparse title dtext dur parts eid st = .ok (msg, st'))
    (e : Event) (he : e ∈ st'.events_store) :
    e ∈ st.events_store ∨
      (e.start = start_dt ∧ e.«end» = start_dt + dur ∧ (0 < dur → e.start < e.«end»)) := by
  simp only [schedule_event, parse_to_datetime, hp] at hok
  split_ifs at hok with hc
  · rw [Except.ok.injEq, Prod.mk.injEq] at hok
    obtain ⟨-, hst⟩ := hok
    subst hst
    rcases List.mem_append.1 he with h | h
    · exact Or.inl h
    · rcases List.mem_singleton.1 h with rfl
      exact Or.inr ⟨rfl, rfl, fun hd => Nat.lt_add_of_pos_right hd⟩
  · rw [Except.ok.injEq, Prod.mk.injEq] at hok
    obtain ⟨-, hst⟩ := hok
    subst hst
    exact Or.inl he

theorem schedule_end_eq_start_add_duration_witness :
    ev30 ∈ st0.events_store ∨
      (ev30.start = 600 ∧ ev30.«end» = 600 + 30 ∧ (0 < 30 → ev30.start < ev30.«end»)) :=
  schedule_end_eq_start_add_duration dpFix st0 "y" "jan" "id-2" 30 600 none
    (scheduledMsg "y" 600 30 DEFAULT_PARTICIPANTS)
    ⟨[ev30], some (save_events [ev30])⟩ rfl rfl ev30 (by decide)

/-- C7 (counterexample): the command `add x on jan for 0 minutes` is accepted
by the public interface, schedules successfully, and stores an event whose
end equals its start — refuting the claim that no reachable store contains
an event whose end is equal to or before its start. -/
theorem zero_duration_event_stored :
    handle_command dpFix "id-0" "add x on jan for 0 minutes" st0 =
      .ok (scheduledMsg "x" 600 0 DEFAULT_PARTICIPANTS,
           ⟨[evZero], some (save_events [evZero])⟩)
    ∧ evZero.«end» = evZero.start ∧ ¬ evZero.start < evZero.«end» :=
  ⟨rfl, rfl, by decide⟩

theorem removeFirstById_found (eid : String) (pre : List Event) (e : Event)
    (post : List Event) (hid : e.id = eid) (hpre : eid ∉ pre.map Event.id) :
    removeFirstById eid (pre ++ e :: post) = some (e, pre ++ post) := by
  induction pre with
  | nil => simp [removeFirstById, hid]
  | cons a l ih =>
    simp only [List.map_cons, List.mem_cons, not_or] at hpre
    obtain ⟨ha, hl⟩ := hpre
    have ha2 : ¬ a.id = eid := fun h => ha h.symm
    simp [removeFirstById, ha2, ih hl]

theorem removeFirstById_not_found (eid : String) (l : List Event)
    (h : eid ∉ l.map Event.id) : removeFirstById eid l = none := by
  induction l with
  | nil => rfl
  | cons a t ih =>
    simp only [List.map_cons, List.mem_cons, not_or] at h
    obtain ⟨h1, h2⟩ := h
    have h1b : ¬ a.id = eid := fun h => h1 h.symm
    simp [removeFirstById, h1b, ih h2]

/-- C3: `remove_event` with an id held by a stored event (the hypothesis
`eid ∉ pre.map Event.id` locates that event's single occurrence, which is
all there can be under the store's id-uniqueness invariant) deletes exactly
that event — the events before and after it are kept unchanged, in order —
and persists the result; with an id matching no stored event it returns the
ℹ not-found message and leaves the state, file included, unchanged. -/
theorem remove_event_spec (st : CalState) (eid : String) :
    (∀ pre e post, st.events_store = pre ++ e :: post → e.id = eid →
      eid ∉ pre.map Event.id →
      remove_event eid st =
        ("🗑 Deleted event " ++ eid ++ ": " ++ e.title,
         ⟨pre ++ post, some (save_events (pre ++ post))⟩))
    ∧ (eid ∉ st.events_store.map Event.id →
      remove_event eid st = ("ℹ No event found with id " ++ eid, st)) := by
  constructor
  · intro pre e post hst hid hpre
    simp [remove_event, hst, removeFirstById_found eid pre e post hid hpre]
  · intro h
    simp [remove_event, removeFirstById_not_found eid _ h]

theorem remove_event_spec_witness :
    remove_event "b1" st2 =
      ("🗑 Deleted event " ++ "b1" ++ ": " ++ evB.title,
       ⟨[evA] ++ [evC], some (save_events ([evA] ++ [evC]))⟩)
    ∧ remove_event "zz" st2 = ("ℹ No event found with id " ++ "zz", st2) :=
  ⟨(remove_event_spec st2 "b1").1 [evA] evB [evC] rfl rfl (by decide),
   (remove_event_spec st2 "zz").2 (by decide)⟩

/-- C4: with a date text, `list_events` selects exactly the stored events
whose start falls on the resolved calendar date, and without one it selects
all stored events; either selection is sorted ascending by start timestamp;
an empty selection yields the explicit ℹ "no events" message as a normal
(`.ok`, non-error) result; a nonempty one yields the rendered sorted
listing. -/
theorem list_events_spec (dparse : String → Option Nat) (st : CalState)
    (dtext : String) (t : Nat) (hp : dparse dtext = some t) :
    (∀ e, e ∈ sortByStart (st.events_store.filter (fun x => decide (x.start / 1440 = t / 1440)))
      ↔ e ∈ st.events_store ∧ e.start / 1440 = t / 1440)
    ∧ List.Sorted startLE
        (sortByStart (st.events_store.filter (fun x => decide (x.start / 1440 = t / 1440))))
    ∧ (st.events_store.filter (fun x => decide (x.start / 1440 = t / 1440)) = [] →
        list_events dparse (some dtext) st =
          .ok ("ℹ No events scheduled for " ++ fmtDate (t / 1440)))
    ∧ (st.events_store.filter (fun x => decide (x.start / 1440 = t / 1440)) ≠ [] →
        list_events dparse (some dtext) st =
          .ok (String.intercalate "\n"
            ((sortByStart (st.events_store.filter (fun x => decide (x.start / 1440 = t / 1440)))).map
              renderEventLine)))
    ∧ (∀ e, e ∈ sortByStart st.events_store ↔ e ∈ st.events_store)
    ∧ List.Sorted startLE (sortByStart st.events_store)
    ∧ (st.events_store = [] → list_events dparse none st = .ok "ℹ No events scheduled.")
    ∧ (st.events_store ≠ [] → list_events dparse none st =
        .ok (String.intercalate "\n" ((sortByStart st.events_store).map renderEventLine))) := by
  refine ⟨?_, ?_, ?_, ?_, ?_, ?_, ?_, ?_⟩
  · intro e
    rw [sortByStart, (List.perm_insertionSort startLE _).mem_iff, List.mem_filter,
      decide_eq_true_eq]
  · exact List.sorted_insertionSort startLE _
  · intro hfil
    simp [list_events, parse_to_datetime, hp, hfil]
  · intro hfil
    have : (st.events_store.filter (fun x => decide (x.start / 1440 = t / 1440))).isEmpty = false :=
      List.isEmpty_eq_false.2 hfil
    simp [list_events, parse_to_datetime, hp, this]
  · intro e
    rw [sortByStart, (List.perm_insertionSort startLE _).mem_iff]
  · exact List.sorted_insertionSort startLE _
  · intro hnil
    simp [list_events, hnil]
  · intro hnil
    have : st.events_store.isEmpty = false := List.isEmpty_eq_false.2 hnil
    simp [list_events, this]

theorem list_events_spec_witness :
    dpFix "2025-06-02" = some 29147040
    ∧ (evB ∈ sortByStart (st2.events_store.filter (fun x => decide (x.start / 1440 = 29147040 / 1440)))
        ↔ evB ∈ st2.events_store ∧ evB.start / 1440 = 29147040 / 1440)
    ∧ (evC ∈ sortByStart (st2.events_store.filter (fun x => decide (x.start / 1440 = 29147040 / 1440)))
        ↔ evC ∈ st2.events_store ∧ evC.start / 1440 = 29147040 / 1440)
    ∧ List.Sorted startLE
        (sortByStart (st2.events_store.filter (fun x => decide (x.start / 1440 = 29147040 / 1440))))
    ∧ list_events dpFix (some "2025-06-02") st2 =
        .ok (String.intercalate "\n"
          ((sortByStart (st2.events_store.filter (fun x => decide (x.start / 1440 = 29147040 / 1440)))).map
            renderEventLine))
    ∧ list_events dpFix none st2 =
        .ok (String.intercalate "\n" ((sortByStart st2.events_store).map renderEventLine)) :=
  ⟨rfl,
   (list_events_spec dpFix st2 "2025-06-02" 29147040 rfl).1 evB,
   (list_events_spec dpFix st2 "2025-06-02" 29147040 rfl).1 evC,
   (list_events_spec dpFix st2 "2025-06-02" 29147040 rfl).2.1,
   (list_events_spec dpFix st2 "2025-06-02" 29147040 rfl).2.2.2.1 (by decide),
   (list_events_spec dpFix st2 "2025-06-02" 29147040 rfl).2.2.2.2.2.2.2 (by decide)⟩

/-- C8: every input line that matches none of the three command patterns and
is not the (case-insensitively compared) literal `view all events` makes
`handle_command` return the fixed "not recognized" text — spelled out here
verbatim with its four template examples — as a normal `.ok` response with
the state untouched, not an error or an exception. -/
theorem unrecognized_command_help
    (dparse : String → Option Nat) (newId cmd : String) (st : CalState)
    (h1 : addMatch (pyStrip cmd).data = none)
    (h2 : viewMatch (pyStrip cmd).data = none)
    (h3 : ¬ pyLower (pyStrip cmd) = "view all events")
    (h4 : deleteMatch (pyStrip cmd).data = none) :
    handle_command dparse newId cmd st = .ok (NOT_RECOGNIZED, st)
    ∧ NOT_RECOGNIZED = "❌ Command not recognized. Examples:\n"
        ++ "- add meeting on tomorrow at 10am for 60 minutes with Parth, Nitish, Atul\n"
        ++ "- what" ++ apos ++ "s happening on 2025-10-16\n"
        ++ "- view all events\n"
        ++ "- delete event <uuid>" := by
  refine ⟨?_, rfl⟩
  simp [handle_command, parseAdd, h1, h2, h3, h4]

theorem unrecognized_command_help_witness :
    handle_command dpFix "id-8" "foo bar" st1 = .ok (NOT_RECOGNIZED, st1) :=
  (unrecognized_command_help dpFix "id-8" "foo bar" st1 rfl rfl (by decide) rfl).1

/-- C9: the input `add meeting on tomorrow at 10am for 60 minutes with
Parth, Nitish` parses to the add intent with title `meeting`, date text
`tomorrow at 10am` (the optional clauses stripped from it by the non-greedy
match), duration 60 minutes, and participants `["Parth", "Nitish"]`. -/
theorem add_command_parse_example :
    parseAdd (pyStrip "add meeting on tomorrow at 10am for 60 minutes with Parth, Nitish") =
      some ("meeting", "tomorrow at 10am", 60, some ["Parth", "Nitish"]) := rfl

end AICal
